import Mathlib

/-!
Verification of the letstalk repository's core logic against its specification.

The Python source is shallowly embedded: pure functions become Lean functions,
Python's `random` calls become explicit parameters (a jitter value, a sampling
function, a shuffling function, a choice index), the LLM backend becomes an
oracle `ℕ → String → Except String String` giving the outcome of each
generation call in order, and Python list indexing becomes `pyIndex`, which
returns `none` exactly when Python would raise `IndexError`.
-/

namespace LetsTalk

/-- Python list indexing `l[i]`: nonnegative indices are positional,
negative indices count from the end, anything out of range is `none`
(Python raises `IndexError` there). -/
def pyIndex {α : Type} (l : List α) (i : ℤ) : Option α :=
  if 0 ≤ i then l[i.toNat]?
  else if -i ≤ (l.length : ℤ) then l[l.length - (-i).toNat]? else none

/-- Whitespace test used by Python's `str.strip()` (the whitespace classes
occurring in this code base's inputs). -/
def pyWhitespace (c : Char) : Bool :=
  c = ' ' || c = '\t' || c = '\n' || c = '\r' || c = Char.ofNat 11 || c = Char.ofNat 12

/-- Python's `str.strip()`: drop leading and trailing whitespace. -/
def pyStrip (s : String) : String :=
  String.mk (((s.data.dropWhile pyWhitespace).reverse.dropWhile pyWhitespace).reverse)

/-- Python's substring test `a in b`. -/
def substrOf (a b : String) : Prop := a.data <:+: b.data

instance (a b : String) : Decidable (substrOf a b) :=
  inferInstanceAs (Decidable (a.data <:+: b.data))

/-- Python's `l[-n:]`: the `n` most recent elements of a list. -/
def lastN {α : Type} (n : ℕ) (l : List α) : List α := l.drop (l.length - n)

/-- A faction of a topic, as stored in `config/subjects.json`
(fields read by the code: name, description, representative, viewpoint, icon). -/
structure School where
  name : String
  description : String
  representative : String
  viewpoint : String
  icon : String
deriving DecidableEq

/-- A topic record, as stored in `config/subjects.json`. -/
structure Subject where
  name : String
  icon : String
  description : String
  persona : String
  schools : List School
deriving DecidableEq

/-- The topic library: `SubjectLibrary.__init__` loads three tiers. -/
structure SubjectLibrary where
  hot_subjects : List Subject
  cold_subjects : List Subject
  crossover_subjects : List Subject

/-- The concatenation `hot + cold + crossover` that the library methods form. -/
def allSubjects (lib : SubjectLibrary) : List Subject :=
  lib.hot_subjects ++ lib.cold_subjects ++ lib.crossover_subjects

/-- `SubjectLibrary.get_subject_by_name`: first subject with the given name. -/
def get_subject_by_name (lib : SubjectLibrary) (name : String) : Option Subject :=
  (allSubjects lib).find? (fun s => s.name = name)

/-- `SubjectLibrary._build_keyword_mapping`: the fixed keyword table; lookup
models Python's `subject_name in self.subject_keywords` dictionary access. -/
def subject_keywords (name : String) : Option (List String) :=
  if name = "心理学" then some ["心理", "情绪", "感受", "想法", "性格", "行为", "焦虑", "压力", "快乐", "幸福", "动机", "记忆", "认知", "潜意识"]
  else if name = "经济学" then some ["钱", "价格", "成本", "收益", "投资", "消费", "市场", "经济", "贸易", "财富", "理性", "选择", "资源", "效用"]
  else if name = "社会学" then some ["社会", "群体", "关系", "文化", "习俗", "规范", "阶层", "角色", "互动", "身份", "从众", "流行", "潮流"]
  else if name = "生物学" then some ["基因", "进化", "遗传", "生存", "繁殖", "适应", "本能", "身体", "大脑", "神经", "激素", "生理"]
  else if name = "哲学" then some ["意义", "本质", "存在", "真理", "价值", "道德", "伦理", "自由", "选择", "人生", "世界", "认识"]
  else if name = "历史学" then some ["历史", "过去", "传统", "古代", "演变", "发展", "起源", "变迁", "朝代", "事件", "经验", "教训"]
  else if name = "物理学" then some ["力量", "能量", "运动", "速度", "平衡", "规律", "系统", "秩序", "混乱", "熵", "守恒"]
  else if name = "文学" then some ["故事", "叙事", "情节", "隐喻", "象征", "表达", "艺术", "文字", "作品", "诗", "小说"]
  else if name = "传播学" then some ["信息", "媒体", "传播", "沟通", "舆论", "影响", "受众", "传媒", "网络", "社交"]
  else if name = "艺术学" then some ["美", "审美", "艺术", "创作", "表现", "风格", "色彩", "形式", "设计", "视觉"]
  else if name = "数学" then some ["数字", "计算", "逻辑", "概率", "统计", "模型", "规律", "推理", "证明"]
  else if name = "计算机科学" then some ["算法", "程序", "代码", "数据", "网络", "智能", "系统", "技术", "自动化"]
  else if name = "教育学" then some ["学习", "教育", "知识", "培养", "成长", "能力", "方法", "教学", "课程"]
  else if name = "法学" then some ["法律", "规则", "权利", "义务", "正义", "公平", "责任", "法规", "制度"]
  else if name = "医学" then some ["健康", "疾病", "治疗", "身体", "症状", "医疗", "养生", "保健", "病"]
  else none

/-- `SubjectLibrary._calculate_relevance`, with the `random.uniform(0, 1.5)`
term passed in as the explicit `jitter` argument.  The description feature
mirrors the source exactly: Python iterates over the *string*
`description[:20]`, so each candidate `word` is a single character. -/
def _calculate_relevance (question : String) (subject : Subject) (jitter : ℚ) : ℚ :=
  let kwScore : ℚ :=
    match subject_keywords subject.name with
    | some keywords => 2 * ((keywords.filter (fun k => decide (substrOf k question))).length : ℚ)
    | none => 0
  let nameScore : ℚ := if substrOf subject.name question then 5 else 0
  let descTokens := (subject.description.data.take 20).map (fun c => String.mk [c])
  let descScore : ℚ :=
    if (descTokens.filter (fun w => decide (1 < w.length))).any
        (fun w => decide (substrOf w question)) then 1 else 0
  kwScore + nameScore + descScore + jitter

/-- Number of match events (occurrences) of `pat` inside `s`. -/
def countHits (pat s : List Char) : ℕ :=
  ((List.range s.length).filter (fun i => pat.isPrefixOf (s.drop i))).length

/-- Modelled from the spec's scoring formula (claim C3): every keyword *hit*
scores 2.0, not mere presence; name appearing verbatim scores 5.0; a
description-derived token of length greater than 1 appearing scores 1.0
(tokens derived as the code derives them, from the first 20 characters);
plus the jitter. -/
def relevanceClaimed (question : String) (subject : Subject) (jitter : ℚ) : ℚ :=
  let kws := (subject_keywords subject.name).getD []
  2 * ((kws.map (fun k => countHits k.data question.data)).sum : ℚ)
  + (if substrOf subject.name question then 5 else 0)
  + (if ((subject.description.data.take 20).map (fun c => String.mk [c])).any
        (fun w => decide (1 < w.length) && decide (substrOf w question)) then 1 else 0)
  + jitter

/-- Tokens produced by iterating over a Python string are single characters,
so the `len(word) > 1` filter in `_calculate_relevance` keeps nothing. -/
theorem singleton_tokens_filter (l : List Char) :
    (l.map (fun c => String.mk [c])).filter (fun w => decide (1 < w.length)) = [] := by
  induction l with
  | nil => rfl
  | cons c cs ih =>
    simp only [List.map_cons, List.filter_cons]
    have h1 : (String.mk [c]).length = 1 := rfl
    simp [h1, ih]

/-- Closed form of `_calculate_relevance`: presence-counted keywords, name
bonus, jitter; the description bonus always vanishes. -/
theorem relevance_closed_form (question : String) (subject : Subject) (jitter : ℚ) :
    _calculate_relevance question subject jitter =
      2 * ((((subject_keywords subject.name).getD []).filter
              (fun k => decide (substrOf k question))).length : ℚ)
      + (if substrOf subject.name question then 5 else 0) + jitter := by
  simp only [_calculate_relevance, singleton_tokens_filter, List.any_nil,
    Bool.false_eq_true, if_false]
  cases h : subject_keywords subject.name with
  | none => simp [h]
  | some kws => simp [h]

/-- Claim C3 (amended): the relevance score equals 2.0 per keyword of the
topic's keyword set that is *present* in the question (each keyword counted
at most once, however many times it occurs in the question), plus 5.0 when
the topic name appears verbatim, plus the jitter; the description-derived
bonus never fires because its candidate tokens are single characters. -/
theorem C3_theorem (question : String) (subject : Subject) (jitter : ℚ) :
    _calculate_relevance question subject jitter =
      2 * ((((subject_keywords subject.name).getD []).filter
              (fun k => decide (substrOf k question))).length : ℚ)
      + (if substrOf subject.name question then 5 else 0) + jitter :=
  relevance_closed_form question subject jitter

/-- Claim C3 counterexample: for the question `"心理心理"` and the 心理学 topic
with jitter 0, the code scores the keyword `"心理"` once (presence), giving 2,
while the claimed every-hit formula counts its two occurrences, giving 4. -/
theorem C3_counterexample :
    _calculate_relevance "心理心理" ⟨"心理学", "", "", "", []⟩ 0 = 2 ∧
    relevanceClaimed "心理心理" ⟨"心理学", "", "", "", []⟩ 0 = 4 ∧
    _calculate_relevance "心理心理" ⟨"心理学", "", "", "", []⟩ 0 ≠
      relevanceClaimed "心理心理" ⟨"心理学", "", "", "", []⟩ 0 := by
  have hfilter : (((subject_keywords "心理学").getD []).filter
      (fun k => decide (substrOf k "心理心理"))) = ["心理"] := by decide
  have hname : ¬ substrOf "心理学" "心理心理" := by decide
  have hsum : (((subject_keywords "心理学").getD []).map
      (fun k => countHits k.data "心理心理".data)).sum = 2 := by decide
  have hdesc : ((("" : String).data.take 20).map (fun c => String.mk [c])).any
      (fun w => decide (1 < w.length) && decide (substrOf w "心理心理")) = false := by decide
  have h1 : _calculate_relevance "心理心理" ⟨"心理学", "", "", "", []⟩ 0 = 2 := by
    rw [relevance_closed_form]
    simp only [hfilter, hname, if_false]
    norm_num
  have h2 : relevanceClaimed "心理心理" ⟨"心理学", "", "", "", []⟩ 0 = 4 := by
    unfold relevanceClaimed
    simp only [hsum, hname, hdesc, if_false, Bool.false_eq_true]
    norm_num
  refine ⟨h1, h2, ?_⟩
  rw [h1, h2]
  norm_num

/-- One debate statement, as appended by the PK endpoints. -/
structure Statement where
  speaker : String
  name : String
  icon : String
  content : String
deriving DecidableEq

/-- The two mutable per-call fields `SubjectAgent.__init__` sets up
(`last_used_demo = False`, `last_error_message = None`). -/
structure AgentState where
  last_used_demo : Bool
  last_error_message : Option String
deriving DecidableEq

/-- `SubjectAgent._get_demo_answer`: keyword-matched scripted one-liners
(Python tests `"心理学" in self.name`, a substring test on the name). -/
def _get_demo_answer (subject : Subject) (question : String) : String :=
  if substrOf "心理学" subject.name then
    "这可能与多巴胺奖励机制有关，大脑在获得即时满足时会释放多巴胺，形成正反馈循环。"
  else if substrOf "经济学" subject.name then
    "根据边际效用递减原理，随着消费量增加，每增加一单位带来的满足感会逐渐降低。"
  else if substrOf "社会学" subject.name then
    "这反映了社会化过程中的群体认同需求，个体通过从众行为获得归属感和安全感。"
  else if substrOf "生物学" subject.name then
    "从进化角度看，这是人类祖先在生存竞争中形成的适应性行为模式，写入了基因记忆。"
  else if substrOf "哲学" subject.name then
    "从存在主义视角，这体现了人追求意义的本质需求，是自我实现的一种表现形式。"
  else if substrOf "历史学" subject.name then
    "历史上类似现象在19世纪工业革命时期就出现过，当时人们面对技术变革也有相似反应。"
  else if substrOf "物理学" subject.name then
    "这类似于热力学第二定律，系统趋向于从有序走向无序，需要持续能量输入才能维持秩序。"
  else if substrOf "文学" subject.name then
    "就像卡夫卡笔下的异化主题，现代人在复杂环境中常感到自我与世界的疏离。"
  else if substrOf "传播学" subject.name then
    "根据使用与满足理论，人们主动选择媒介内容来满足自己的心理和社交需求。"
  else if substrOf "艺术学" subject.name then
    "这种现象在印象派绘画中有体现——打破传统规则，追求主观感受和即时印象的表达。"
  else
    "从" ++ subject.name ++ "的核心概念出发，这个现象可以用具体的理论框架来解释和分析。"

/-- `SubjectAgent._get_demo_deep_answer`. -/
def _get_demo_deep_answer (subject : Subject) (question : String) : String :=
  if substrOf "心理学" subject.name then
    "从心理学角度深入分析，这个问题涉及多巴胺奖励回路的机制。当我们获得即时满足时，大脑会释放多巴胺，产生愉悦感。\n            \n这种正反馈会强化行为模式，让我们倾向于重复这个行为。但长期来看，过度依赖即时满足会降低大脑对奖励的敏感度，需要更强的刺激才能获得同样的快感。\n\n建议通过\"延迟满足\"训练来提升自控力，这是心理韧性的重要组成部分。"
  else if substrOf "经济学" subject.name then
    "从经济学视角，这符合\"边际效用递减\"的经典原理。每增加一单位的消费，带来的额外满足感会逐渐降低。\n\n理性的经济人会在边际成本等于边际收益时做出最优决策。但现实中，人们常受\"锚定效应\"和\"损失厌恶\"的影响，做出非理性选择。\n\n因此，建立明确的成本-收益分析框架，能帮助我们做出更理性的决策。"
  else
    "从" ++ subject.name ++ "的角度深入分析，这个问题有多个层面值得探讨。\n\n首先，我们需要理解其核心机制和内在逻辑。其次，要考虑历史演变和现实背景的影响。\n\n最后，从实践角度看，我们可以采取一些具体的策略来应对这个问题。"

/-- The scripted suggestion list used by `generate_suggestions` in demo mode
and on backend failure (identical in both branches of the source). -/
def demo_suggestions (name : String) : List String :=
  ["从" ++ name ++ "角度，如何将这个理论应用到实际生活中？",
   "能否举一个" ++ name ++ "领域的具体案例来说明？",
   "这个观点在" ++ name ++ "发展史上有哪些重要争论？"]

/-- Post-processing of the backend text in `LLMClient.generate_suggestions`:
split lines, strip, drop blanks and `#`-prefixed lines, keep 3. -/
def suggestions_from_text (response : String) : List String :=
  (((response.splitOn "\n").map pyStrip).filter
    (fun s => !(s = "") && !(s.startsWith "#"))).take 3

/-- Post-processing in `LLMClient.generate_arguments` (same shape). -/
def arguments_from_text (response : String) : List String :=
  (((response.splitOn "\n").map pyStrip).filter
    (fun s => !(s = "") && !(s.startsWith "#"))).take 3

/-- `SubjectAgent._get_demo_viewpoint`: exact-name dictionary with default. -/
def _get_demo_viewpoint (subject : Subject) (question : String) : String :=
  if subject.name = "心理学" then "这本质上是大脑神经机制和认知模式的产物"
  else if subject.name = "经济学" then "这是理性选择和资源优化配置的结果"
  else if subject.name = "社会学" then "这反映了社会结构和文化规范对个体的塑造"
  else if subject.name = "生物学" then "这是进化过程中形成的生存适应策略"
  else if subject.name = "哲学" then "这涉及存在意义和价值判断的根本问题"
  else "从" ++ subject.name ++ "角度看，这需要系统性分析"

/-- `SubjectAgent._get_demo_arguments`. -/
def _get_demo_arguments (subject : Subject) (question : String) : List String :=
  if substrOf "心理学" subject.name then
    ["神经科学研究证实，这与前额叶皮层的决策功能直接相关",
     "大量心理实验数据支持这个解释模型",
     "临床案例显示，相关干预措施能有效改善这种状况"]
  else if substrOf "经济学" subject.name then
    ["历史数据表明，市场规律在此发挥了关键作用",
     "博弈论模型能完美解释这种行为模式",
     "成本-收益分析框架为此提供了理论支撑"]
  else if substrOf "社会学" subject.name then
    ["社会调查数据显示，这是普遍的群体现象",
     "文化人类学研究发现，不同社会有相似模式",
     "社会网络分析揭示了其中的互动机制"]
  else
    [subject.name ++ "的核心理论为此提供了解释框架",
     "大量实证研究支持这个" ++ subject.name ++ "观点",
     "从" ++ subject.name ++ "发展史看，这个现象由来已久"]

/-- Round-1 template list of `_get_demo_pk_statement`: the
`statements_templates` dictionary looked up by exact name, with the
generic parameterized default. -/
def pk_round1_templates (subject : Subject) : List String :=
  if subject.name = "心理学" then
    ["从认知心理学角度，这涉及大脑的决策机制和奖励系统的相互作用。",
     "心理实验表明，人们在这种情况下会受到认知偏差的影响。",
     "神经科学研究发现，这与前额叶皮层和边缘系统的功能密切相关。",
     "我们需要关注个体差异，不同性格类型的人反应模式完全不同。",
     "临床数据显示，这种行为模式可以通过认知行为疗法得到改善。"]
  else if subject.name = "经济学" then
    ["从经济学视角，这是典型的理性选择问题，涉及成本收益分析。",
     "市场数据表明，人们会根据边际效用来做出决策。",
     "博弈论模型可以完美解释这种策略性行为。",
     "历史案例显示，制度设计在这个问题上起到关键作用。",
     "从资源配置效率看，这反映了市场机制的内在逻辑。"]
  else if subject.name = "社会学" then
    ["从社会学角度，这是社会结构和文化规范共同作用的结果。",
     "社会调查数据显示，这种现象具有明显的群体性特征。",
     "我们不能忽视社会化过程对个体行为的深刻影响。",
     "跨文化比较研究发现，不同社会在这方面存在显著差异。",
     "社会网络分析揭示了人际互动在其中扮演的重要角色。"]
  else if subject.name = "生物学" then
    ["从进化生物学看，这是自然选择长期作用的产物。",
     "基因研究表明，遗传因素在这个问题上有不可忽视的影响。",
     "生理机制显示，激素和神经递质调节着这种行为。",
     "比较动物学研究发现，类似现象在其他物种中也存在。",
     "从适应性角度，这种特征曾经具有生存优势。"]
  else if subject.name = "哲学" then
    ["从哲学本体论看，这涉及存在与意识的根本关系。",
     "伦理学视角下，我们需要思考价值判断的标准是什么。",
     "认识论告诉我们，我们对这个问题的理解本身就值得反思。",
     "存在主义强调，个体的自由选择和责任才是核心。",
     "从历史唯物主义看，社会存在决定社会意识。"]
  else
    ["从" ++ subject.name ++ "角度分析，这个问题有其独特的解释框架。",
     subject.name ++ "研究为此提供了重要的理论支持。",
     "我们需要用" ++ subject.name ++ "的方法论来审视这个现象。",
     "大量" ++ subject.name ++ "实证研究验证了这个观点。",
     "从" ++ subject.name ++ "发展史看，这是一个经典问题。"]

/-- The round-selected template list of `_get_demo_pk_statement`
(round 1 → the per-subject table; round 2 → rebuttal set; otherwise → the
closing set). -/
def pk_round_templates (subject : Subject) (round_num : ℕ) : List String :=
  if round_num = 1 then pk_round1_templates subject
  else if round_num = 2 then
    ["我必须指出，仅从其他角度看是不够全面的，" ++ subject.name ++ "提供了更深层的解释。",
     "最新的" ++ subject.name ++ "研究证据强有力地支持了我的观点。",
     "让我们回到问题的本质，" ++ subject.name ++ "揭示了根本原因。",
     "虽然其他视角有一定道理，但" ++ subject.name ++ "的解释更具说服力。",
     "实践证明，" ++ subject.name ++ "的方法在解决这类问题上最为有效。"]
  else
    ["综合来看，" ++ subject.name ++ "视角为这个问题提供了最系统的解决方案。",
     "我们应该认识到，" ++ subject.name ++ "方法论的优势在于其科学性和可验证性。",
     "从长远发展看，" ++ subject.name ++ "的洞察对未来具有重要指导意义。",
     "让我们用" ++ subject.name ++ "的智慧来化解这个难题。",
     "最终，" ++ subject.name ++ "为我们指明了正确的方向。"]

/-- `SubjectAgent._get_demo_pk_statement`: picks the round's template list,
then indexes it at `(turn - 1) % len(templates)` (Python `%` on a positive
modulus is the Euclidean remainder, matching `Int.emod`). -/
def _get_demo_pk_statement (subject : Subject) (question : String)
    (round_num turn : ℕ) : Option String :=
  pyIndex (pk_round_templates subject round_num)
    (((turn : ℤ) - 1) % ((pk_round_templates subject round_num).length : ℤ))

/-- `SubjectAgent.answer_one_sentence`.  `llm` is `none` when the agent has
no client (demo mode) and otherwise carries the outcome of the single
backend call.  Returns (text, agent state after the call, backend attempts). -/
def answer_one_sentence (subject : Subject) (st : AgentState)
    (llm : Option (Except String String)) (question : String) :
    String × AgentState × ℕ :=
  match llm with
  | none => (_get_demo_answer subject question, st, 0)
  | some (.ok text) => (text, st, 1)
  | some (.error _) => (_get_demo_answer subject question, st, 1)

/-- `SubjectAgent.deep_answer`: resets `last_used_demo`, attempts the single
backend call, and on failure records the error detail and the fallback flag. -/
def deep_answer (subject : Subject) (st : AgentState)
    (llm : Option (Except String String)) (question context : String) :
    String × AgentState × ℕ :=
  let st := { st with last_used_demo := false }
  match llm with
  | none => (_get_demo_deep_answer subject question, { st with last_used_demo := true }, 0)
  | some (.ok text) => (text, { st with last_used_demo := false }, 1)
  | some (.error e) =>
      (_get_demo_deep_answer subject question,
       { st with last_used_demo := true, last_error_message := some e }, 1)

/-- `SubjectAgent.generate_suggestions`: sets `last_used_demo` on both paths
but never touches `last_error_message`. -/
def generate_suggestions (subject : Subject) (st : AgentState)
    (llm : Option (Except String String)) (question answer : String) :
    List String × AgentState × ℕ :=
  match llm with
  | none => (demo_suggestions subject.name, { st with last_used_demo := true }, 0)
  | some (.ok text) => (suggestions_from_text text, { st with last_used_demo := false }, 1)
  | some (.error _) => (demo_suggestions subject.name, { st with last_used_demo := true }, 1)

/-- `SubjectAgent.generate_viewpoint`: no agent-state update on any path. -/
def generate_viewpoint (subject : Subject) (st : AgentState)
    (llm : Option (Except String String)) (question : String) :
    String × AgentState × ℕ :=
  match llm with
  | none => (_get_demo_viewpoint subject question, st, 0)
  | some (.ok text) => (text, st, 1)
  | some (.error _) => (_get_demo_viewpoint subject question, st, 1)

/-- `SubjectAgent.generate_arguments`: no agent-state update on any path. -/
def generate_arguments (subject : Subject) (st : AgentState)
    (llm : Option (Except String String)) (question : String) :
    List String × AgentState × ℕ :=
  match llm with
  | none => (_get_demo_arguments subject question, st, 0)
  | some (.ok text) => (arguments_from_text text, st, 1)
  | some (.error _) => (_get_demo_arguments subject question, st, 1)

/-- `SubjectAgent.generate_pk_statement`: no agent-state update on any path.
The content is an `Option` because the demo path indexes a list. -/
def generate_pk_statement (subject : Subject) (st : AgentState)
    (llm : Option (Except String String)) (question : String)
    (history : List Statement) (round_num turn : ℕ) :
    Option String × AgentState × ℕ :=
  match llm with
  | none => (_get_demo_pk_statement subject question round_num turn, st, 0)
  | some (.ok text) => (some text, st, 1)
  | some (.error _) => (_get_demo_pk_statement subject question round_num turn, st, 1)

/-- Claim C5 (amended): on a backend failure every generation operation makes
exactly one backend attempt, never retries, and returns fallback content
instead of propagating the error; but only `deep_answer` sets
`last_used_demo` and records `last_error_message`; `generate_suggestions`
sets `last_used_demo` without recording the detail; the other four
operations (`answer_one_sentence`, `generate_viewpoint`,
`generate_arguments`, `generate_pk_statement`) leave the agent state
entirely unchanged. -/
theorem C5_theorem (subject : Subject) (st : AgentState)
    (e question answer context : String) (history : List Statement) (r t : ℕ) :
    answer_one_sentence subject st (some (.error e)) question =
        (_get_demo_answer subject question, st, 1) ∧
    deep_answer subject st (some (.error e)) question context =
        (_get_demo_deep_answer subject question,
         { last_used_demo := true, last_error_message := some e }, 1) ∧
    generate_suggestions subject st (some (.error e)) question answer =
        (demo_suggestions subject.name, { st with last_used_demo := true }, 1) ∧
    generate_viewpoint subject st (some (.error e)) question =
        (_get_demo_viewpoint subject question, st, 1) ∧
    generate_arguments subject st (some (.error e)) question =
        (_get_demo_arguments subject question, st, 1) ∧
    generate_pk_statement subject st (some (.error e)) question history r t =
        (_get_demo_pk_statement subject question r t, st, 1) :=
  ⟨rfl, rfl, rfl, rfl, rfl, rfl⟩

/-- Claim C5 counterexample: after a failed backend call,
`answer_one_sentence` has returned fallback content, yet the agent's
`last_used_demo` flag is still `false` and no failure detail was recorded —
the claim's required side effects do not happen for this operation. -/
theorem C5_counterexample :
    (answer_one_sentence ⟨"物理学", "⚛️", "d", "p", []⟩ ⟨false, none⟩
        (some (.error "boom")) "为什么？").1 =
      _get_demo_answer ⟨"物理学", "⚛️", "d", "p", []⟩ "为什么？" ∧
    (answer_one_sentence ⟨"物理学", "⚛️", "d", "p", []⟩ ⟨false, none⟩
        (some (.error "boom")) "为什么？").2.1.last_used_demo = false ∧
    (answer_one_sentence ⟨"物理学", "⚛️", "d", "p", []⟩ ⟨false, none⟩
        (some (.error "boom")) "为什么？").2.1.last_error_message = none :=
  ⟨rfl, rfl, rfl⟩

/-- `pyIndex` at a nonnegative in-range position is `getElem?`. -/
theorem pyIndex_nonneg {α : Type} (l : List α) (i : ℤ) (h : 0 ≤ i) :
    pyIndex l i = l[i.toNat]? := by
  simp [pyIndex, h]

/-- `pyIndex` succeeds on a nonnegative index below the length. -/
theorem pyIndex_isSome {α : Type} (l : List α) (i : ℤ)
    (h0 : 0 ≤ i) (hl : i < (l.length : ℤ)) : (pyIndex l i).isSome := by
  rw [pyIndex_nonneg l i h0]
  have hn : i.toNat < l.length := by omega
  simp [List.getElem?_eq_getElem hn]

/-- A successful `pyIndex` yields a member of the list. -/
theorem pyIndex_mem {α : Type} {l : List α} {i : ℤ} {v : α}
    (h : pyIndex l i = some v) : v ∈ l := by
  unfold pyIndex at h
  split at h
  · exact List.getElem?_mem h
  · split at h
    · exact List.getElem?_mem h
    · cases h

/-- The five scripted templates of `_get_demo_school_statement`, built from
the school's own fields. -/
def school_templates (school : School) : List String :=
  ["从" ++ school.name ++ "角度，" ++ school.viewpoint ++ "。",
   school.representative ++ "早已指出，我们应该" ++ school.description ++ "。",
   "我必须强调，" ++ school.name ++ "的核心在于对这个问题的深刻理解。",
   "根据" ++ school.name ++ "的理论框架，这个现象可以得到更好的解释。",
   "让我们回到" ++ school.description ++ "，这才是问题的关键所在。"]

/-- `app._get_demo_school_statement`: index `(round−1)*5 + turn − 1`,
falling back to index 0 whenever that is not below the list length
(Python evaluates `templates[idx] if idx < len(templates) else templates[0]`;
a negative `idx` ≥ −5 would wrap from the end, as `pyIndex` captures). -/
def _get_demo_school_statement (school : School) (round_num turn : ℕ) : Option String :=
  if ((round_num : ℤ) - 1) * 5 + (turn : ℤ) - 1 < ((school_templates school).length : ℤ)
  then pyIndex (school_templates school) (((round_num : ℤ) - 1) * 5 + (turn : ℤ) - 1)
  else pyIndex (school_templates school) 0

theorem school_templates_length (s : School) : (school_templates s).length = 5 := rfl

theorem pk_round_templates_length (s : Subject) (r : ℕ) :
    (pk_round_templates s r).length = 5 := by
  unfold pk_round_templates pk_round1_templates
  split_ifs <;> rfl

/-- The demo school statement is defined (no `IndexError`) for every
round ≥ 1 and turn ≥ 1, and yields one of the five templates. -/
theorem school_statement_total (s : School) (r t : ℕ) (hr : 1 ≤ r) (ht : 1 ≤ t) :
    ∃ v, _get_demo_school_statement s r t = some v ∧ v ∈ school_templates s := by
  unfold _get_demo_school_statement
  set idx : ℤ := ((r : ℤ) - 1) * 5 + (t : ℤ) - 1 with hidx
  have h0 : 0 ≤ idx := by omega
  have hlen : ((school_templates s).length : ℤ) = 5 := by
    rw [school_templates_length]; norm_num
  split
  · next hlt =>
      have := pyIndex_isSome (school_templates s) idx h0 hlt
      rcases Option.isSome_iff_exists.mp this with ⟨v, hv⟩
      exact ⟨v, hv, pyIndex_mem hv⟩
  · have : (pyIndex (school_templates s) 0).isSome :=
      pyIndex_isSome _ 0 le_rfl (by omega)
    rcases Option.isSome_iff_exists.mp this with ⟨v, hv⟩
    exact ⟨v, hv, pyIndex_mem hv⟩

/-- The demo PK statement equals the round template list indexed at the
spec's index `(round−1)*5 + (turn−1)`, wrapped modulo the list bound. -/
theorem pk_statement_wrap (subject : Subject) (question : String) (r t : ℕ)
    (hr : 1 ≤ r) :
    _get_demo_pk_statement subject question r t =
      pyIndex (pk_round_templates subject r)
        ((((r : ℤ) - 1) * 5 + ((t : ℤ) - 1)) % 5) := by
  unfold _get_demo_pk_statement
  rw [pk_round_templates_length]
  congr 1
  push_cast
  omega

/-- The demo PK statement is defined for every turn and yields one of the
round's five templates. -/
theorem pk_statement_total (subject : Subject) (question : String) (r t : ℕ) :
    ∃ v, _get_demo_pk_statement subject question r t = some v ∧
      v ∈ pk_round_templates subject r := by
  unfold _get_demo_pk_statement
  rw [pk_round_templates_length]
  have h0 : (0 : ℤ) ≤ ((t : ℤ) - 1) % 5 := Int.emod_nonneg _ (by norm_num)
  have h5 : ((t : ℤ) - 1) % 5 < 5 := Int.emod_lt_of_pos _ (by norm_num)
  have hlt : ((t : ℤ) - 1) % 5 < ((pk_round_templates subject r).length : ℤ) := by
    rw [pk_round_templates_length]; exact_mod_cast h5
  have := pyIndex_isSome (pk_round_templates subject r) _ h0 hlt
  rcases Option.isSome_iff_exists.mp this with ⟨v, hv⟩
  exact ⟨v, hv, pyIndex_mem hv⟩

/-- Claim C9: both scripted-statement fallbacks are pure functions of
(identity, round, turn) — equal inputs give equal output — and the template
index `(round−1)*5 + turn − 1` is clamped (school variant) or wrapped
modulo the bound (topic variant) into the template list, so every
round ≥ 1, turn ≥ 1 yields a template with no out-of-range error. -/
theorem C9_theorem (school : School) (subject : Subject) (question : String)
    (r t : ℕ) (hr : 1 ≤ r) (ht : 1 ≤ t) :
    (∀ s₂ r₂ t₂, school = s₂ → r = r₂ → t = t₂ →
      _get_demo_school_statement school r t = _get_demo_school_statement s₂ r₂ t₂) ∧
    (∃ v, _get_demo_school_statement school r t = some v ∧ v ∈ school_templates school) ∧
    (((r : ℤ) - 1) * 5 + (t : ℤ) - 1 < 5 →
      _get_demo_school_statement school r t =
        pyIndex (school_templates school) (((r : ℤ) - 1) * 5 + (t : ℤ) - 1)) ∧
    (5 ≤ ((r : ℤ) - 1) * 5 + (t : ℤ) - 1 →
      _get_demo_school_statement school r t = pyIndex (school_templates school) 0) ∧
    (_get_demo_pk_statement subject question r t =
      pyIndex (pk_round_templates subject r)
        ((((r : ℤ) - 1) * 5 + ((t : ℤ) - 1)) % 5)) ∧
    (∃ v, _get_demo_pk_statement subject question r t = some v ∧
      v ∈ pk_round_templates subject r) := by
  refine ⟨?_, school_statement_total school r t hr ht, ?_, ?_,
    pk_statement_wrap subject question r t hr,
    pk_statement_total subject question r t⟩
  · rintro s₂ r₂ t₂ rfl rfl rfl; rfl
  · intro hlt
    unfold _get_demo_school_statement
    rw [if_pos]
    rw [school_templates_length]; exact_mod_cast hlt
  · intro hge
    unfold _get_demo_school_statement
    rw [if_neg]
    rw [school_templates_length]; omega

/-- Witness for C9 at round 2, turn 9 — an index (13) beyond the template
count, exercising both the clamp and the wrap. -/
theorem C9_witness :
    (1 ≤ 2 ∧ 1 ≤ 9) ∧
    (∃ v, _get_demo_school_statement ⟨"理性派", "d", "r", "v", "i"⟩ 2 9 = some v ∧
      v ∈ school_templates ⟨"理性派", "d", "r", "v", "i"⟩) ∧
    _get_demo_pk_statement ⟨"哲学", "🤔", "d", "p", []⟩ "q" 2 9 =
      pyIndex (pk_round_templates ⟨"哲学", "🤔", "d", "p", []⟩ 2)
        ((((2 : ℤ) - 1) * 5 + ((9 : ℤ) - 1)) % 5) := by
  have h := C9_theorem ⟨"理性派", "d", "r", "v", "i"⟩ ⟨"哲学", "🤔", "d", "p", []⟩ "q"
    2 9 (by norm_num) (by norm_num)
  exact ⟨⟨by norm_num, by norm_num⟩, h.2.1, h.2.2.2.2.1⟩

theorem string_data_append (s t : String) : (s ++ t).data = s.data ++ t.data := by
  cases s; cases t; rfl

/-- The opponent-latest highlight built by `LLMClient.generate_pk_statement`
when the history is non-empty. -/
def opponent_latest (history : List Statement) : String :=
  match history.getLast? with
  | some last => "\n\n对方最新观点：「" ++ last.content ++ "」"
  | none => ""

/-- Formatting of one history entry in both debate prompts. -/
def history_line (h : Statement) : String := h.name ++ ": " ++ h.content

/-- The history block of `LLMClient.generate_pk_statement`
(only rendered when more than one statement exists; capped at the 6 most
recent). -/
def pk_history_text (history : List Statement) : String :=
  if 1 < history.length then
    "\n历史对话：\n" ++ String.intercalate "\n" ((lastN 6 history).map history_line)
  else ""

/-- The user prompt of `LLMClient.generate_pk_statement`. -/
def pk_statement_prompt (question subject_name : String)
    (history : List Statement) : String :=
  "辩论问题：" ++ question ++ pk_history_text history ++ opponent_latest history
  ++ "\n\n请以" ++ subject_name ++ "专家的身份发表一句观点（30-60字），必须针对对方的最新观点进行回应。"

/-- The history block of `app._generate_school_statement`
(rendered whenever the history is non-empty; capped at the 6 most recent). -/
def school_history_text (history : List Statement) : String :=
  if history = [] then ""
  else "\n历史对话：\n" ++ String.intercalate "\n" ((lastN 6 history).map history_line)

/-- The user prompt of `app._generate_school_statement`. -/
def school_statement_prompt (question school_name : String)
    (history : List Statement) : String :=
  "辩论问题：" ++ question ++ "\n" ++ school_history_text history
  ++ "\n\n请以" ++ school_name ++ "学派的立场发表一句观点（30-60字）。"

theorem lastN_length {α : Type} (n : ℕ) (l : List α) :
    (lastN n l).length = min n l.length := by
  unfold lastN; rw [List.length_drop]; omega

theorem lastN_lastN {α : Type} (n : ℕ) (l : List α) :
    lastN n (lastN n l) = lastN n l := by
  unfold lastN
  rw [List.drop_drop, List.length_drop]
  congr 1
  omega

theorem lastN_getLast? {α : Type} (n : ℕ) (hn : 1 ≤ n) (l : List α) :
    (lastN n l).getLast? = l.getLast? := by
  unfold lastN
  rcases l with _ | ⟨a, l'⟩
  · simp
  · rw [List.getLast?_eq_getElem? .., List.getLast?_eq_getElem? ..,
      List.getElem?_drop, List.length_drop]
    congr 1
    have : (a :: l').length = l'.length + 1 := rfl
    omega

theorem opponent_latest_window (h : List Statement) :
    opponent_latest (lastN 6 h) = opponent_latest h := by
  unfold opponent_latest
  rw [lastN_getLast? 6 (by norm_num) h]

theorem pk_history_text_window (h : List Statement) :
    pk_history_text (lastN 6 h) = pk_history_text h := by
  unfold pk_history_text
  have hc : 1 < (lastN 6 h).length ↔ 1 < h.length := by
    rw [lastN_length]; omega
  rw [lastN_lastN]
  exact if_congr hc rfl rfl

theorem school_history_text_window (h : List Statement) :
    school_history_text (lastN 6 h) = school_history_text h := by
  unfold school_history_text
  have hc : lastN 6 h = [] ↔ h = [] := by
    constructor
    · intro he
      have hlen := congrArg List.length he
      rw [lastN_length] at hlen
      simp only [List.length_nil] at hlen
      exact List.length_eq_zero.mp (by omega)
    · intro he; subst he; rfl
  rw [lastN_lastN]
  exact if_congr hc rfl rfl

/-- Statements older than the 6 most recent never influence the topic-PK
generation prompt. -/
theorem pk_prompt_window (q sn : String) (h : List Statement) :
    pk_statement_prompt q sn (lastN 6 h) = pk_statement_prompt q sn h := by
  unfold pk_statement_prompt
  rw [pk_history_text_window, opponent_latest_window]

/-- Statements older than the 6 most recent never influence the school-PK
generation prompt. -/
theorem school_prompt_window (q scn : String) (h : List Statement) :
    school_statement_prompt q scn (lastN 6 h) = school_statement_prompt q scn h := by
  unfold school_statement_prompt
  rw [school_history_text_window]

/-- For a non-empty history, the topic-PK prompt highlights the most recent
statement: the marker and the latest content both occur in the prompt. -/
theorem pk_prompt_highlights (q sn : String) (h : List Statement)
    (last : Statement) (hlast : h.getLast? = some last) :
    substrOf "对方最新观点" (pk_statement_prompt q sn h) ∧
    substrOf last.content (pk_statement_prompt q sn h) := by
  have hol : opponent_latest h = "\n\n对方最新观点：「" ++ last.content ++ "」" := by
    unfold opponent_latest; rw [hlast]
  have hdata : (pk_statement_prompt q sn h).data =
      ("辩论问题：" ++ q ++ pk_history_text h).data ++ (opponent_latest h).data
        ++ ("\n\n请以" ++ sn ++ "专家的身份发表一句观点（30-60字），必须针对对方的最新观点进行回应。").data := by
    unfold pk_statement_prompt
    simp only [string_data_append, List.append_assoc]
  have hinfix : (opponent_latest h).data <:+: (pk_statement_prompt q sn h).data := by
    rw [hdata]; exact List.infix_append _ _ _
  constructor
  · refine List.IsInfix.trans ?_ hinfix
    rw [hol]
    have : ("\n\n对方最新观点：「" ++ last.content ++ "」").data =
        "\n\n".data ++ "对方最新观点".data ++ ("：「" ++ last.content ++ "」").data := by
      simp only [string_data_append, List.append_assoc]
      rfl
    rw [this]
    exact List.infix_append _ _ _
  · refine List.IsInfix.trans ?_ hinfix
    rw [hol]
    have : ("\n\n对方最新观点：「" ++ last.content ++ "」").data =
        "\n\n对方最新观点：「".data ++ last.content.data ++ "」".data := by
      simp only [string_data_append, List.append_assoc]
    rw [this]
    exact List.infix_append _ _ _

/-- Claim C8 (amended): every debate generation prompt is built from at most
the 6 most recent history statements (older ones cannot affect it), and the
topic-PK prompt additionally highlights the single most recent statement as
the opponent's latest point whenever the history is non-empty; the
school-PK prompt has no such separate highlight (see the counterexample). -/
theorem C8_theorem (q sn scn : String) (h : List Statement)
    (last : Statement) (hlast : h.getLast? = some last) :
    pk_statement_prompt q sn (lastN 6 h) = pk_statement_prompt q sn h ∧
    school_statement_prompt q scn (lastN 6 h) = school_statement_prompt q scn h ∧
    substrOf "对方最新观点" (pk_statement_prompt q sn h) ∧
    substrOf last.content (pk_statement_prompt q sn h) :=
  ⟨pk_prompt_window q sn h, school_prompt_window q scn h,
   (pk_prompt_highlights q sn h last hlast).1,
   (pk_prompt_highlights q sn h last hlast).2⟩

/-- Witness for C8 on a one-statement history. -/
theorem C8_witness :
    ([⟨"subject1", "心理学", "🧠", "先行观点"⟩] : List Statement).getLast? =
      some ⟨"subject1", "心理学", "🧠", "先行观点"⟩ ∧
    substrOf "对方最新观点"
      (pk_statement_prompt "为什么人们喜欢拖延？" "经济学"
        [⟨"subject1", "心理学", "🧠", "先行观点"⟩]) := by
  refine ⟨rfl, ?_⟩
  have h := C8_theorem "为什么人们喜欢拖延？" "经济学" "行为主义"
    [⟨"subject1", "心理学", "🧠", "先行观点"⟩]
    ⟨"subject1", "心理学", "🧠", "先行观点"⟩ rfl
  exact h.2.2.1

/-- Claim C8 counterexample: the school-PK generation prompt for a
non-empty history contains no separate opponent-latest highlight — the
marker the topic-PK prompt carries is absent — so the claim's "every
debate statement generation call … highlights the most recent statement"
fails for school statements. -/
theorem C8_counterexample :
    ¬ substrOf "对方最新观点"
        (school_statement_prompt "为什么人们喜欢拖延？" "行为主义"
          [⟨"school1", "精神分析", "🧠", "先行观点"⟩]) ∧
    substrOf "对方最新观点"
      (pk_statement_prompt "为什么人们喜欢拖延？" "心理学"
        [⟨"school1", "精神分析", "🧠", "先行观点"⟩]) := by
  constructor
  · decide
  · decide

/-- Error responses of the endpoints (HTTP 400 / 404 / 503 / 500). -/
inductive ApiErr where
  | badRequest (msg : String)
  | notFound (msg : String)
  | serviceUnavailable (msg : String)
  | internal (msg : String)
deriving DecidableEq

def exceptIsErr {ε α : Type} : Except ε α → Bool
  | .error _ => true
  | .ok _ => false

def exceptIsOk {ε α : Type} : Except ε α → Bool
  | .error _ => false
  | .ok _ => true

/-- Request body of `POST /api/school-pk` (fields the handler reads, with
the handler's defaults already applied). -/
structure SchoolPkRequest where
  question : String
  subject_name : String
  school1 : String
  school2 : String
  round : ℕ
  history : List Statement
  max_statements : ℕ
  user_input : Option String

/-- Success response of `POST /api/school-pk`. -/
structure SchoolPkResponse where
  question : String
  subject_name : String
  statements : List Statement
  round : ℕ
  has_more : Bool
  school1_name : String
  school1_icon : String
  school2_name : String
  school2_icon : String
  fun_fact : Option String
deriving DecidableEq

/-- Request body of `POST /api/pk`. -/
structure PkRequest where
  question : String
  subject1 : String
  subject2 : String
  round : ℕ
  history : List Statement

/-- Success response of `POST /api/pk`. -/
structure PkResponse where
  question : String
  statements : List Statement
  round : ℕ
  has_more : Bool
  fun_fact : Option String
deriving DecidableEq

/-- `app._generate_school_statement`: demo path without a client, one
backend attempt otherwise, falling back to the scripted statement on
failure.  `llmRes` is `none` without a client, else the call's outcome. -/
def _generate_school_statement (question : String) (school : School)
    (subject : Subject) (history : List Statement) (round_num turn : ℕ)
    (llmRes : Option (Except String String)) : Option String :=
  match llmRes with
  | none => _get_demo_school_statement school round_num turn
  | some (.ok text) => some text
  | some (.error _) => _get_demo_school_statement school round_num turn

/-- Lines 529-535 of `app.school_pk`: a non-empty `user_input` is appended
to the history as a user statement before the round starts. -/
def school_pk_history (req : SchoolPkRequest) : List Statement :=
  req.history ++
    (match req.user_input with
     | some u => if u = "" then [] else [⟨"user", "用户", "👤", u⟩]
     | none => [])

/-- Content of statement `i` of a school-PK round: school1 speaks on even
`i`, school2 on odd `i`, turn number `i/2 + 1`; the oracle gives the
backend outcome for call `i` on the school prompt. -/
def school_pk_content (question : String) (subject : Subject) (s1 s2 : School)
    (history : List Statement) (r : ℕ) (llmPresent : Bool)
    (oracle : ℕ → String → Except String String) (i : ℕ) : Option String :=
  _generate_school_statement question (if i % 2 = 0 then s1 else s2) subject
    history r (i / 2 + 1)
    (if llmPresent then
      some (oracle i (school_statement_prompt question
        (if i % 2 = 0 then s1 else s2).name history))
     else none)

/-- Statement `i` of a school-PK round as appended by the loop. -/
def school_pk_stmt (question : String) (subject : Subject) (s1 s2 : School)
    (history : List Statement) (r : ℕ) (llmPresent : Bool)
    (oracle : ℕ → String → Except String String) (i : ℕ) : Statement :=
  { speaker := if i % 2 = 0 then "school1" else "school2"
    name := (if i % 2 = 0 then s1 else s2).name
    icon := (if i % 2 = 0 then s1 else s2).icon
    content := (school_pk_content question subject s1 s2 history r llmPresent oracle i).getD "" }

/-- The fixed closing fun-fact string of `app.school_pk` (line 589). -/
def school_fun_fact (school1_name school2_name subject_name : String) : String :=
  "💡 有趣的是，" ++ school1_name ++ "和" ++ school2_name ++ "虽然观点不同，但都丰富了"
    ++ subject_name ++ "的理论体系！跨派别思维是深度理解的关键！"

/-- The success response `app.school_pk` assembles (lines 569-589). -/
def school_pk_ok_response (req : SchoolPkRequest) (subject_info : Subject)
    (school1_info school2_info : School) (llmPresent : Bool)
    (oracle : ℕ → String → Except String String) : SchoolPkResponse :=
  { question := pyStrip req.question
    subject_name := pyStrip req.subject_name
    statements := (List.range req.max_statements).map
      (school_pk_stmt (pyStrip req.question) subject_info school1_info school2_info
        (school_pk_history req) req.round llmPresent oracle)
    round := req.round
    has_more := decide (req.round < 3)
    school1_name := pyStrip req.school1
    school1_icon := school1_info.icon
    school2_name := pyStrip req.school2
    school2_icon := school2_info.icon
    fun_fact := if req.round < 3 then none
      else some (school_fun_fact (pyStrip req.school1) (pyStrip req.school2)
        (pyStrip req.subject_name)) }

/-- `app.school_pk`.  `LLM_ONLY` is the module-level strict flag (in scope
but never read by this handler), `llmPresent` says whether `current_llm`
is a client, and the oracle gives each backend call's outcome.  The second
component counts backend generation calls.  A statement whose scripted
index would be out of range surfaces as the handler's 500 response. -/
def school_pk (lib : SubjectLibrary) (LLM_ONLY llmPresent : Bool)
    (oracle : ℕ → String → Except String String) (req : SchoolPkRequest) :
    Except ApiErr SchoolPkResponse × ℕ :=
  if pyStrip req.question = "" ∨ pyStrip req.subject_name = "" ∨
     pyStrip req.school1 = "" ∨ pyStrip req.school2 = "" then
    (.error (.badRequest "问题、学科和两个派别名称不能为空"), 0)
  else if pyStrip req.school1 = pyStrip req.school2 then
    (.error (.badRequest "请选择两个不同的派别进行PK"), 0)
  else
    match get_subject_by_name lib (pyStrip req.subject_name) with
    | none => (.error (.notFound ("未找到学科：" ++ pyStrip req.subject_name)), 0)
    | some subject_info =>
      match subject_info.schools.find? (fun s => s.name = pyStrip req.school1),
            subject_info.schools.find? (fun s => s.name = pyStrip req.school2) with
      | some school1_info, some school2_info =>
          if ((List.range req.max_statements).map
                (school_pk_content (pyStrip req.question) subject_info school1_info
                  school2_info (school_pk_history req) req.round llmPresent oracle)).all
              Option.isSome then
            (.ok (school_pk_ok_response req subject_info school1_info school2_info
                   llmPresent oracle),
             if llmPresent then req.max_statements else 0)
          else
            (.error (.internal "IndexError"), if llmPresent then req.max_statements else 0)
      | _, _ => (.error (.notFound "未找到指定的派别"), 0)

/-- The fun-fact pool of `app._generate_fun_fact`. -/
def _generate_fun_fact_pool (subject1 subject2 : String) : List String :=
  ["💡 有趣的是，" ++ subject1 ++ "和" ++ subject2 ++ "在历史上曾经是同一门学科的分支！",
   "💡 研究发现，同时从" ++ subject1 ++ "和" ++ subject2 ++ "角度思考问题的人，创造力提高了37%！",
   "💡 许多诺贝尔奖得主都同时精通" ++ subject1 ++ "和" ++ subject2 ++ "，跨学科思维是创新的关键！",
   "💡 在古希腊，" ++ subject1 ++ "和" ++ subject2 ++ "被认为是理解世界的两个互补视角。",
   "💡 最新研究表明，" ++ subject1 ++ "和" ++ subject2 ++ "的结合催生了许多前沿领域的突破！"]

/-- `app._generate_fun_fact`, with `random.choice` modelled by the explicit
`choice` index into the pool. -/
def _generate_fun_fact (subject1 subject2 question : String) (choice : ℕ) : Option String :=
  pyIndex (_generate_fun_fact_pool subject1 subject2) (choice : ℤ)

/-- `app.subject_pk`.  After validation and the two library lookups the
handler's next statement is `statements_per_round = max_statements`
(app.py line 715), but `subject_pk` never defines a local
`max_statements`, so Python raises `NameError`, which the
`except Exception` handler at line 764 turns into a 500 response; no
generation call is ever made on this path. -/
def subject_pk (lib : SubjectLibrary) (LLM_ONLY llmPresent : Bool)
    (oracle : ℕ → String → Except String String) (req : PkRequest) :
    Except ApiErr PkResponse × ℕ :=
  if pyStrip req.question = "" ∨ pyStrip req.subject1 = "" ∨ pyStrip req.subject2 = "" then
    (.error (.badRequest "问题和两个学科名称不能为空"), 0)
  else if pyStrip req.subject1 = pyStrip req.subject2 then
    (.error (.badRequest "请选择两个不同的学科进行PK"), 0)
  else
    match get_subject_by_name lib (pyStrip req.subject1),
          get_subject_by_name lib (pyStrip req.subject2) with
    | some _, some _ =>
        (.error (.internal "NameError: name 'max_statements' is not defined"), 0)
    | _, _ => (.error (.notFound "未找到指定的学科"), 0)

/-- Lines 81-90 of `app.ask_question`: the question is validated before
anything else runs; `rest` stands for the remainder of the handler. -/
def ask_question {ρ : Type} (rest : String → ℕ → Except ApiErr ρ × ℕ)
    (question_raw : String) (subject_count : ℕ) : Except ApiErr ρ × ℕ :=
  if pyStrip question_raw = "" then (.error (.badRequest "问题不能为空"), 0)
  else rest (pyStrip question_raw) subject_count

/-- `pyIndex` also succeeds on a negative index that wraps within range. -/
theorem pyIndex_isSome_neg {α : Type} (l : List α) (i : ℤ)
    (hneg : i < 0) (hge : -(l.length : ℤ) ≤ i) : (pyIndex l i).isSome := by
  unfold pyIndex
  rw [if_neg (by omega), if_pos (by omega)]
  have hlt : l.length - (-i).toNat < l.length := by omega
  simp [List.getElem?_eq_getElem hlt]

/-- The scripted school statement exists for every round and every
turn ≥ 1 (the clamp keeps the index in range; a small negative index from
`round = 0` wraps from the end as Python indexing does). -/
theorem school_statement_isSome (s : School) (r t : ℕ) (ht : 1 ≤ t) :
    (_get_demo_school_statement s r t).isSome := by
  unfold _get_demo_school_statement
  have h5 : ((school_templates s).length : ℤ) = 5 := by
    rw [school_templates_length]; norm_num
  split
  · next hlt =>
      rcases le_or_lt 0 (((r : ℤ) - 1) * 5 + (t : ℤ) - 1) with h0 | h0
      · exact pyIndex_isSome _ _ h0 hlt
      · exact pyIndex_isSome_neg _ _ h0 (by omega)
  · exact pyIndex_isSome _ 0 le_rfl (by omega)

/-- Every statement slot of a school-PK round produces content: the
backend text on success, otherwise the scripted statement, which is
always defined at turn `i/2 + 1 ≥ 1`. -/
theorem school_pk_content_isSome (question : String) (subject : Subject)
    (s1 s2 : School) (history : List Statement) (r : ℕ) (llmP : Bool)
    (oracle : ℕ → String → Except String String) (i : ℕ) :
    (school_pk_content question subject s1 s2 history r llmP oracle i).isSome := by
  have ht : 1 ≤ i / 2 + 1 := by omega
  unfold school_pk_content _generate_school_statement
  cases llmP with
  | false => simpa using school_statement_isSome _ r _ ht
  | true =>
      cases h : oracle i (school_statement_prompt question
          (if i % 2 = 0 then s1 else s2).name history) with
      | ok text => simp [h]
      | error e => simpa [h] using school_statement_isSome _ r _ ht

theorem school_pk_contents_all (question : String) (subject : Subject)
    (s1 s2 : School) (history : List Statement) (r n : ℕ) (llmP : Bool)
    (oracle : ℕ → String → Except String String) :
    ((List.range n).map
      (school_pk_content question subject s1 s2 history r llmP oracle)).all
      Option.isSome = true := by
  rw [List.all_eq_true]
  intro x hx
  rw [List.mem_map] at hx
  obtain ⟨i, _, rfl⟩ := hx
  exact school_pk_content_isSome question subject s1 s2 history r llmP oracle i

/-- A school-PK request that passes validation always succeeds and returns
the assembled response, making one backend call per statement when a
client is present. -/
theorem school_pk_success (lib : SubjectLibrary) (strict llmP : Bool)
    (oracle : ℕ → String → Except String String) (req : SchoolPkRequest)
    (hq : pyStrip req.question ≠ "") (hsn : pyStrip req.subject_name ≠ "")
    (h1 : pyStrip req.school1 ≠ "") (h2 : pyStrip req.school2 ≠ "")
    (hne : pyStrip req.school1 ≠ pyStrip req.school2)
    (subject_info : Subject)
    (hsub : get_subject_by_name lib (pyStrip req.subject_name) = some subject_info)
    (school1_info school2_info : School)
    (hf1 : subject_info.schools.find? (fun s => s.name = pyStrip req.school1) =
      some school1_info)
    (hf2 : subject_info.schools.find? (fun s => s.name = pyStrip req.school2) =
      some school2_info) :
    school_pk lib strict llmP oracle req =
      (.ok (school_pk_ok_response req subject_info school1_info school2_info llmP oracle),
       if llmP then req.max_statements else 0) := by
  unfold school_pk
  rw [if_neg (by rintro (h | h | h | h) <;> [exact hq h; exact hsn h; exact h1 h; exact h2 h]),
    if_neg hne]
  simp only [hsub, hf1, hf2]
  rw [if_pos (school_pk_contents_all _ _ _ _ _ _ _ _ _)]

/-- Inversion: a successful `school_pk` call can only arise from the
success branch, so the response is the assembled one and the call count is
one per statement with a client, zero otherwise. -/
theorem school_pk_ok_inv (lib : SubjectLibrary) (strict llmP : Bool)
    (oracle : ℕ → String → Except String String) (req : SchoolPkRequest)
    (resp : SchoolPkResponse) (k : ℕ)
    (h : school_pk lib strict llmP oracle req = (.ok resp, k)) :
    ∃ subject_info school1_info school2_info,
      get_subject_by_name lib (pyStrip req.subject_name) = some subject_info ∧
      subject_info.schools.find? (fun s => s.name = pyStrip req.school1) =
        some school1_info ∧
      subject_info.schools.find? (fun s => s.name = pyStrip req.school2) =
        some school2_info ∧
      resp = school_pk_ok_response req subject_info school1_info school2_info llmP oracle ∧
      k = if llmP then req.max_statements else 0 := by
  unfold school_pk at h
  split at h
  · simp at h
  · split at h
    · simp at h
    · split at h
      · simp at h
      · next subject_info hsub =>
          split at h
          · next school1_info school2_info hf1 hf2 =>
              split at h
              · rw [Prod.mk.injEq] at h
                obtain ⟨hresp, hk⟩ := h
                exact ⟨subject_info, school1_info, school2_info, hsub, hf1, hf2,
                  (Except.ok.inj hresp).symm, hk.symm⟩
              · simp at h
          · simp at h

theorem school_pk_stmt_speaker (question : String) (subject : Subject)
    (s1 s2 : School) (history : List Statement) (r : ℕ) (llmP : Bool)
    (oracle : ℕ → String → Except String String) (i : ℕ) :
    (school_pk_stmt question subject s1 s2 history r llmP oracle i).speaker =
      if i % 2 = 0 then "school1" else "school2" := rfl

theorem school_pk_stmt_name (question : String) (subject : Subject)
    (s1 s2 : School) (history : List Statement) (r : ℕ) (llmP : Bool)
    (oracle : ℕ → String → Except String String) (i : ℕ) :
    (school_pk_stmt question subject s1 s2 history r llmP oracle i).name =
      if i % 2 = 0 then s1.name else s2.name := by
  unfold school_pk_stmt
  split <;> rfl

/-- Querying statement `i` of the assembled response. -/
theorem ok_response_statements (req : SchoolPkRequest) (subject_info : Subject)
    (school1_info school2_info : School) (llmP : Bool)
    (oracle : ℕ → String → Except String String) :
    (school_pk_ok_response req subject_info school1_info school2_info llmP oracle).statements.length
      = req.max_statements ∧
    ∀ i : ℕ, i < req.max_statements →
      (school_pk_ok_response req subject_info school1_info school2_info llmP oracle).statements[i]?
        = some (school_pk_stmt (pyStrip req.question) subject_info school1_info school2_info
            (school_pk_history req) req.round llmP oracle i) := by
  constructor
  · simp [school_pk_ok_response]
  · intro i hi
    simp [school_pk_ok_response, List.getElem?_map, List.getElem?_range hi]

theorem find?_name_eq {schools : List School} {target : String} {s : School}
    (h : schools.find? (fun x => x.name = target) = some s) : s.name = target := by
  have := List.find?_some h
  exact of_decide_eq_true this

theorem substrOf_decomp {x l : String} (s t : List Char)
    (h : l.data = s ++ x.data ++ t) : substrOf x l := by
  unfold substrOf
  rw [h]
  exact List.infix_append s x.data t

/-- Both participant names occur in, and nonemptiness of, any string of the
shape `A ++ s1 ++ M ++ s2 ++ B` with non-empty `A`. -/
theorem substr_shape (A M B s1 s2 : String) (hA : A.data ≠ []) :
    substrOf s1 (A ++ s1 ++ M ++ s2 ++ B) ∧
    substrOf s2 (A ++ s1 ++ M ++ s2 ++ B) ∧
    (A ++ s1 ++ M ++ s2 ++ B) ≠ "" := by
  refine ⟨substrOf_decomp A.data (M.data ++ s2.data ++ B.data) ?_,
    substrOf_decomp (A.data ++ s1.data ++ M.data) B.data ?_, ?_⟩
  · simp [string_data_append, List.append_assoc]
  · simp [string_data_append, List.append_assoc]
  · intro hc
    have hd := congrArg String.data hc
    simp only [string_data_append, List.append_assoc] at hd
    exact hA (List.append_eq_nil.mp hd).1

/-- The school-PK closing fun fact names both schools and is non-empty. -/
theorem school_fun_fact_props (s1 s2 subj : String) :
    substrOf s1 (school_fun_fact s1 s2 subj) ∧
    substrOf s2 (school_fun_fact s1 s2 subj) ∧
    school_fun_fact s1 s2 subj ≠ "" := by
  unfold school_fun_fact
  have h := substr_shape "💡 有趣的是，" "和"
    ("虽然观点不同，但都丰富了" ++ subj ++ "的理论体系！跨派别思维是深度理解的关键！")
    s1 s2 (by decide)
  simpa [String.append_assoc] using h

/-- Every choice from `_generate_fun_fact`'s pool names both subjects and
is non-empty. -/
theorem fun_fact_pool_props (s1 s2 q : String) (c : ℕ) (hc : c < 5) :
    ∃ f, _generate_fun_fact s1 s2 q c = some f ∧
      substrOf s1 f ∧ substrOf s2 f ∧ f ≠ "" := by
  interval_cases c
  · exact ⟨_, rfl, substr_shape "💡 有趣的是，" "和" "在历史上曾经是同一门学科的分支！" s1 s2 (by decide)⟩
  · exact ⟨_, rfl, substr_shape "💡 研究发现，同时从" "和" "角度思考问题的人，创造力提高了37%！" s1 s2 (by decide)⟩
  · exact ⟨_, rfl, substr_shape "💡 许多诺贝尔奖得主都同时精通" "和" "，跨学科思维是创新的关键！" s1 s2 (by decide)⟩
  · exact ⟨_, rfl, substr_shape "💡 在古希腊，" "和" "被认为是理解世界的两个互补视角。" s1 s2 (by decide)⟩
  · exact ⟨_, rfl, substr_shape "💡 最新研究表明，" "和" "的结合催生了许多前沿领域的突破！" s1 s2 (by decide)⟩

/-- Fixture: a topic with two factions, used to exercise the endpoints. -/
def schoolA : School := ⟨"存在主义", "强调个体存在", "萨特", "存在先于本质", "🌀"⟩

def schoolB : School := ⟨"理性主义", "强调理性推演", "笛卡尔", "我思故我在", "📐"⟩

def subjPhil : Subject := ⟨"哲学", "🤔", "研究存在与意义", "思辨", [schoolA, schoolB]⟩

def libS : SubjectLibrary :=
  ⟨[subjPhil, ⟨"心理学", "🧠", "研究人类心理", "理性", []⟩,
    ⟨"经济学", "💰", "研究资源配置", "实证", []⟩], [], []⟩

/-- Fixture: a backend whose every call fails. -/
def oracleFail : ℕ → String → Except String String := fun _ _ => .error "LLM down"

def reqS1 : SchoolPkRequest := ⟨"什么是自由？", "哲学", "存在主义", "理性主义", 1, [], 2, none⟩

def reqS3 : SchoolPkRequest := ⟨"什么是自由？", "哲学", "存在主义", "理性主义", 3, [], 2, none⟩

def reqSame : SchoolPkRequest := ⟨"什么是自由？", "哲学", "存在主义", "存在主义", 1, [], 2, none⟩

def reqPkX : PkRequest := ⟨"为什么人们喜欢拖延？", "心理学", "经济学", 1, []⟩

def respS3 : SchoolPkResponse :=
  school_pk_ok_response reqS3 subjPhil schoolA schoolB false oracleFail

def respS1f : SchoolPkResponse :=
  school_pk_ok_response reqS1 subjPhil schoolA schoolB true oracleFail

theorem reqS3_success :
    school_pk libS false false oracleFail reqS3 = (.ok respS3, 0) := by
  have h := school_pk_success libS false false oracleFail reqS3
    (by decide) (by decide) (by decide) (by decide) (by decide)
    subjPhil rfl schoolA schoolB rfl rfl
  simpa [respS3] using h

/-- Claim C1: a successfully processed school-PK round returns exactly
`max_statements` statements, alternating school1/school2 starting with
school1, with the even slots spoken by the first requested faction and the
odd slots by the second; the topic-vs-topic PK handler, however, always
fails with a 500 (`NameError`: it reads the undefined local
`max_statements` at app.py line 715) on every validated request, so it
never returns any statements — exhibited on a concrete valid request. -/
theorem C1_theorem (lib : SubjectLibrary) (strict llmP : Bool)
    (oracle : ℕ → String → Except String String) (req : SchoolPkRequest)
    (resp : SchoolPkResponse) (k : ℕ)
    (h : school_pk lib strict llmP oracle req = (.ok resp, k)) :
    (resp.statements.length = req.max_statements ∧
     ∀ i : ℕ, i < req.max_statements →
       resp.statements[i]?.map Statement.speaker =
         some (if i % 2 = 0 then "school1" else "school2") ∧
       resp.statements[i]?.map Statement.name =
         some (if i % 2 = 0 then pyStrip req.school1 else pyStrip req.school2)) ∧
    subject_pk libS strict llmP oracle reqPkX =
      (.error (.internal "NameError: name 'max_statements' is not defined"), 0) := by
  obtain ⟨si, s1, s2, hsub, hf1, hf2, hresp, hk⟩ := school_pk_ok_inv _ _ _ _ _ _ _ h
  subst hresp
  obtain ⟨hlen, hget⟩ := ok_response_statements req si s1 s2 llmP oracle
  refine ⟨⟨hlen, ?_⟩, rfl⟩
  intro i hi
  rw [hget i hi]
  constructor
  · rw [Option.map_some', school_pk_stmt_speaker]
  · rw [Option.map_some', school_pk_stmt_name, find?_name_eq hf1, find?_name_eq hf2]

/-- Witness for C1: a concrete school-PK round that succeeds with exactly
2 statements. -/
theorem C1_witness :
    school_pk libS false false oracleFail reqS3 = (.ok respS3, 0) ∧
    respS3.statements.length = 2 :=
  ⟨reqS3_success,
   (C1_theorem libS false false oracleFail reqS3 respS3 0 reqS3_success).1.1⟩

/-- Claim C2 (amended): the debate-round handlers perform no strict-mode
check at all — their result is independent of `LLM_ONLY` — and with a
client present whose every call fails, a validated school-PK round still
succeeds, returning one scripted fallback statement per slot (the
topic-vs-topic handler instead always fails with its `NameError`,
regardless of strict mode).  Round-level strict enforcement exists only in
the blind-box and deep-chat handlers. -/
theorem C2_theorem (lib : SubjectLibrary) (llmP : Bool)
    (oracle : ℕ → String → Except String String) (req : SchoolPkRequest)
    (reqP : PkRequest) (msg : String)
    (hq : pyStrip req.question ≠ "") (hsn : pyStrip req.subject_name ≠ "")
    (h1 : pyStrip req.school1 ≠ "") (h2 : pyStrip req.school2 ≠ "")
    (hne : pyStrip req.school1 ≠ pyStrip req.school2)
    (subject_info : Subject)
    (hsub : get_subject_by_name lib (pyStrip req.subject_name) = some subject_info)
    (s1 s2 : School)
    (hf1 : subject_info.schools.find? (fun s => s.name = pyStrip req.school1) = some s1)
    (hf2 : subject_info.schools.find? (fun s => s.name = pyStrip req.school2) = some s2) :
    school_pk lib true llmP oracle req = school_pk lib false llmP oracle req ∧
    subject_pk lib true llmP oracle reqP = subject_pk lib false llmP oracle reqP ∧
    school_pk lib true true (fun _ _ => .error msg) req =
      (.ok (school_pk_ok_response req subject_info s1 s2 true (fun _ _ => .error msg)),
       req.max_statements) ∧
    (∀ i : ℕ, i < req.max_statements →
      (school_pk_ok_response req subject_info s1 s2 true
          (fun _ _ => .error msg)).statements[i]?.map Statement.content =
        some ((_get_demo_school_statement (if i % 2 = 0 then s1 else s2)
          req.round (i / 2 + 1)).getD "")) := by
  refine ⟨rfl, rfl, ?_, ?_⟩
  · have h := school_pk_success lib true true (fun _ _ => .error msg) req
      hq hsn h1 h2 hne subject_info hsub s1 s2 hf1 hf2
    simpa using h
  · intro i hi
    rw [(ok_response_statements req subject_info s1 s2 true
      (fun _ _ => .error msg)).2 i hi, Option.map_some']
    rfl

/-- Witness for C2's amended statement on concrete data. -/
theorem C2_witness :
    school_pk libS true true oracleFail reqS1 = (.ok respS1f, 2) := by
  have h := C2_theorem libS true oracleFail reqS1 reqPkX "LLM down"
    (by decide) (by decide) (by decide) (by decide) (by decide)
    subjPhil rfl schoolA schoolB rfl rfl
  have := h.2.2.1
  simpa [respS1f, oracleFail] using this

/-- Claim C2 counterexample: with strict mode on (`LLM_ONLY = true`) and a
backend whose every call fails, the school-PK round does *not* fail with a
backend-required error — it succeeds, returning 2 statements whose content
is the scripted fallback.  The statements are returned to the caller. -/
theorem C2_counterexample :
    school_pk libS true true oracleFail reqS1 = (.ok respS1f, 2) ∧
    respS1f.statements.length = 2 ∧
    respS1f.statements[0]?.map Statement.content =
      some ((_get_demo_school_statement schoolA 1 1).getD "") :=
  ⟨by
    have h := school_pk_success libS true true oracleFail reqS1
      (by decide) (by decide) (by decide) (by decide) (by decide)
      subjPhil rfl schoolA schoolB rfl rfl
    simpa [respS1f] using h,
   rfl, rfl⟩

/-- Claim C6: on every successfully processed school-PK round,
`has_more` is true exactly when `round < 3`; the fun fact is present
exactly when `has_more` is false, and it is then non-empty and names both
participants; and every choice from the topic-PK fun-fact pool
(`_generate_fun_fact`) likewise yields a non-empty string naming both
participants. -/
theorem C6_theorem (lib : SubjectLibrary) (strict llmP : Bool)
    (oracle : ℕ → String → Except String String) (req : SchoolPkRequest)
    (resp : SchoolPkResponse) (k : ℕ) (s1n s2n fq : String) (c : ℕ)
    (h : school_pk lib strict llmP oracle req = (.ok resp, k)) (hc : c < 5) :
    resp.has_more = decide (req.round < 3) ∧
    (resp.fun_fact = none ↔ req.round < 3) ∧
    (∀ f, resp.fun_fact = some f →
      f ≠ "" ∧ substrOf resp.school1_name f ∧ substrOf resp.school2_name f) ∧
    (∃ f, _generate_fun_fact s1n s2n fq c = some f ∧
      substrOf s1n f ∧ substrOf s2n f ∧ f ≠ "") := by
  obtain ⟨si, s1, s2, hsub, hf1, hf2, hresp, hk⟩ := school_pk_ok_inv _ _ _ _ _ _ _ h
  subst hresp
  refine ⟨rfl, ?_, ?_, fun_fact_pool_props s1n s2n fq c hc⟩
  · show (if req.round < 3 then none else some _) = none ↔ req.round < 3
    by_cases hr : req.round < 3 <;> simp [hr]
  · intro f hf
    replace hf : (if req.round < 3 then none
        else some (school_fun_fact (pyStrip req.school1) (pyStrip req.school2)
          (pyStrip req.subject_name))) = some f := hf
    by_cases hr : req.round < 3
    · rw [if_pos hr] at hf; cases hf
    · rw [if_neg hr] at hf
      obtain rfl : school_fun_fact (pyStrip req.school1) (pyStrip req.school2)
          (pyStrip req.subject_name) = f := Option.some.inj hf
      obtain ⟨ha, hb, hne⟩ := school_fun_fact_props (pyStrip req.school1)
        (pyStrip req.school2) (pyStrip req.subject_name)
      exact ⟨hne, ha, hb⟩

/-- Witness for C6: the concrete round-3 school PK has `has_more = false`
and carries a fun fact. -/
theorem C6_witness :
    school_pk libS false false oracleFail reqS3 = (.ok respS3, 0) ∧
    respS3.has_more = decide (reqS3.round < 3) ∧
    (respS3.fun_fact = none ↔ reqS3.round < 3) :=
  ⟨reqS3_success,
   (C6_theorem libS false false oracleFail reqS3 respS3 0 "a" "b" "q" 0
     reqS3_success (by norm_num)).1,
   (C6_theorem libS false false oracleFail reqS3 respS3 0 "a" "b" "q" 0
     reqS3_success (by norm_num)).2.1⟩

/-- Claim C7: a missing/empty question, identical participants, or an
unknown topic or faction name is rejected before any generation: the
result is an error, zero backend calls are made, and no statements exist. -/
theorem C7_theorem (lib : SubjectLibrary) (strict llmP : Bool)
    (oracle : ℕ → String → Except String String) (req : SchoolPkRequest)
    (reqP : PkRequest) {ρ : Type} (rest : String → ℕ → Except ApiErr ρ × ℕ)
    (qraw : String) (sc : ℕ) :
    (pyStrip qraw = "" →
      ask_question rest qraw sc = (.error (.badRequest "问题不能为空"), 0)) ∧
    ((pyStrip req.question = "" ∨ pyStrip req.subject_name = "" ∨
      pyStrip req.school1 = "" ∨ pyStrip req.school2 = "") →
      school_pk lib strict llmP oracle req =
        (.error (.badRequest "问题、学科和两个派别名称不能为空"), 0)) ∧
    (pyStrip req.school1 = pyStrip req.school2 →
      exceptIsErr (school_pk lib strict llmP oracle req).1 = true ∧
      (school_pk lib strict llmP oracle req).2 = 0) ∧
    (get_subject_by_name lib (pyStrip req.subject_name) = none →
      exceptIsErr (school_pk lib strict llmP oracle req).1 = true ∧
      (school_pk lib strict llmP oracle req).2 = 0) ∧
    (∀ subject_info,
      get_subject_by_name lib (pyStrip req.subject_name) = some subject_info →
      (subject_info.schools.find? (fun s => s.name = pyStrip req.school1) = none ∨
       subject_info.schools.find? (fun s => s.name = pyStrip req.school2) = none) →
      exceptIsErr (school_pk lib strict llmP oracle req).1 = true ∧
      (school_pk lib strict llmP oracle req).2 = 0) ∧
    ((pyStrip reqP.question = "" ∨ pyStrip reqP.subject1 = "" ∨
      pyStrip reqP.subject2 = "") →
      subject_pk lib strict llmP oracle reqP =
        (.error (.badRequest "问题和两个学科名称不能为空"), 0)) ∧
    (pyStrip reqP.subject1 = pyStrip reqP.subject2 →
      exceptIsErr (subject_pk lib strict llmP oracle reqP).1 = true ∧
      (subject_pk lib strict llmP oracle reqP).2 = 0) ∧
    ((get_subject_by_name lib (pyStrip reqP.subject1) = none ∨
      get_subject_by_name lib (pyStrip reqP.subject2) = none) →
      exceptIsErr (subject_pk lib strict llmP oracle reqP).1 = true ∧
      (subject_pk lib strict llmP oracle reqP).2 = 0) := by
  refine ⟨?_, ?_, ?_, ?_, ?_, ?_, ?_, ?_⟩
  · intro h; unfold ask_question; rw [if_pos h]
  · intro h; unfold school_pk; rw [if_pos h]
  · intro h
    unfold school_pk
    by_cases ha : pyStrip req.question = "" ∨ pyStrip req.subject_name = "" ∨
        pyStrip req.school1 = "" ∨ pyStrip req.school2 = ""
    · rw [if_pos ha]; exact ⟨rfl, rfl⟩
    · rw [if_neg ha, if_pos h]; exact ⟨rfl, rfl⟩
  · intro h
    unfold school_pk
    by_cases ha : pyStrip req.question = "" ∨ pyStrip req.subject_name = "" ∨
        pyStrip req.school1 = "" ∨ pyStrip req.school2 = ""
    · rw [if_pos ha]; exact ⟨rfl, rfl⟩
    · rw [if_neg ha]
      by_cases hb : pyStrip req.school1 = pyStrip req.school2
      · rw [if_pos hb]; exact ⟨rfl, rfl⟩
      · rw [if_neg hb]
        simp only [h]
        exact ⟨rfl, trivial⟩
  · intro si hsi hor
    unfold school_pk
    by_cases ha : pyStrip req.question = "" ∨ pyStrip req.subject_name = "" ∨
        pyStrip req.school1 = "" ∨ pyStrip req.school2 = ""
    · rw [if_pos ha]; exact ⟨rfl, rfl⟩
    · rw [if_neg ha]
      by_cases hb : pyStrip req.school1 = pyStrip req.school2
      · rw [if_pos hb]; exact ⟨rfl, rfl⟩
      · rw [if_neg hb]
        simp only [hsi]
        rcases hor with h1 | h2
        · simp only [h1]; exact ⟨rfl, trivial⟩
        · cases hfa : si.schools.find? (fun s => s.name = pyStrip req.school1) with
          | none => simp only [hfa]; exact ⟨rfl, trivial⟩
          | some s1' => simp only [hfa, h2]; exact ⟨rfl, trivial⟩
  · intro h; unfold subject_pk; rw [if_pos h]
  · intro h
    unfold subject_pk
    by_cases ha : pyStrip reqP.question = "" ∨ pyStrip reqP.subject1 = "" ∨
        pyStrip reqP.subject2 = ""
    · rw [if_pos ha]; exact ⟨rfl, rfl⟩
    · rw [if_neg ha, if_pos h]; exact ⟨rfl, rfl⟩
  · intro h
    unfold subject_pk
    by_cases ha : pyStrip reqP.question = "" ∨ pyStrip reqP.subject1 = "" ∨
        pyStrip reqP.subject2 = ""
    · rw [if_pos ha]; exact ⟨rfl, rfl⟩
    · rw [if_neg ha]
      by_cases hb : pyStrip reqP.subject1 = pyStrip reqP.subject2
      · rw [if_pos hb]; exact ⟨rfl, rfl⟩
      · rw [if_neg hb]
        rcases h with h1 | h2
        · simp only [h1]; exact ⟨rfl, trivial⟩
        · cases hfa : get_subject_by_name lib (pyStrip reqP.subject1) with
          | none => simp only [hfa]; exact ⟨rfl, trivial⟩
          | some s1' => simp only [hfa, h2]; exact ⟨rfl, trivial⟩

/-- Witness for C7: choosing the same faction for both sides of a concrete
school PK is rejected with zero backend calls. -/
theorem C7_witness :
    pyStrip reqSame.school1 = pyStrip reqSame.school2 ∧
    exceptIsErr (school_pk libS false false oracleFail reqSame).1 = true ∧
    (school_pk libS false false oracleFail reqSame).2 = 0 :=
  ⟨rfl,
   ((C7_theorem libS false false oracleFail reqSame reqPkX
      (fun _ _ => ((.error (.internal "unused") : Except ApiErr Unit), 0)) "" 3).2.2.1 rfl).1,
   ((C7_theorem libS false false oracleFail reqSame reqPkX
      (fun _ _ => ((.error (.internal "unused") : Except ApiErr Unit), 0)) "" 3).2.2.1 rfl).2⟩

/-- The backfill loop of `get_smart_subjects` (lines 91-96): walk the
ranked list, appending any subject not yet selected, stopping as soon as
the target count is reached. -/
def backfill : List (Subject × ℚ) → List Subject → ℕ → List Subject
  | [], sel, _ => sel
  | p :: ps, sel, count =>
    if p.1 ∈ sel then backfill ps sel count
    else if count ≤ (sel ++ [p.1]).length then sel ++ [p.1]
    else backfill ps (sel ++ [p.1]) count

theorem backfill_cons (p : Subject × ℚ) (ps : List (Subject × ℚ))
    (sel : List Subject) (c : ℕ) :
    backfill (p :: ps) sel c =
      if p.1 ∈ sel then backfill ps sel c
      else if c ≤ (sel ++ [p.1]).length then sel ++ [p.1]
      else backfill ps (sel ++ [p.1]) c := rfl

/-- Backfilling only appends: the initial selection is a prefix. -/
theorem backfill_prefix (l : List (Subject × ℚ)) :
    ∀ (sel : List Subject) (c : ℕ), ∃ t, backfill l sel c = sel ++ t := by
  induction l with
  | nil => exact fun sel c => ⟨[], (List.append_nil sel).symm⟩
  | cons p ps ih =>
    intro sel c
    rw [backfill_cons]
    split_ifs with h1 h2
    · exact ih sel c
    · exact ⟨[p.1], rfl⟩
    · obtain ⟨t, ht⟩ := ih (sel ++ [p.1]) c
      exact ⟨[p.1] ++ t, by rw [ht, List.append_assoc]⟩

theorem backfill_subset (l : List (Subject × ℚ)) :
    ∀ (sel : List Subject) (c : ℕ) (x : Subject),
      x ∈ backfill l sel c → x ∈ sel ∨ x ∈ l.map Prod.fst := by
  induction l with
  | nil => exact fun sel c x hx => Or.inl hx
  | cons p ps ih =>
    intro sel c x hx
    rw [backfill_cons] at hx
    split_ifs at hx with h1 h2
    · rcases ih sel c x hx with h | h
      · exact Or.inl h
      · exact Or.inr (by simp [h])
    · rcases List.mem_append.mp hx with h | h
      · exact Or.inl h
      · simp only [List.mem_singleton] at h
        subst h
        exact Or.inr (by simp)
    · rcases ih (sel ++ [p.1]) c x hx with h | h
      · rcases List.mem_append.mp h with h' | h'
        · exact Or.inl h'
        · simp only [List.mem_singleton] at h'
          subst h'
          exact Or.inr (by simp)
      · exact Or.inr (by simp [h])

theorem backfill_nodup (l : List (Subject × ℚ)) :
    ∀ (sel : List Subject) (c : ℕ), sel.Nodup → (backfill l sel c).Nodup := by
  induction l with
  | nil => exact fun sel c h => h
  | cons p ps ih =>
    intro sel c h
    rw [backfill_cons]
    have hext : p.1 ∉ sel → (sel ++ [p.1]).Nodup := fun h1 =>
      List.nodup_append.mpr ⟨h, List.nodup_singleton _, by
        intro a ha hb
        simp only [List.mem_singleton] at hb
        subst hb
        exact h1 ha⟩
    split_ifs with h1 h2
    · exact ih sel c h
    · exact hext h1
    · exact ih (sel ++ [p.1]) c (hext h1)

/-- Backfilling either reaches the target count or ends up containing
every ranked subject. -/
theorem backfill_covers (l : List (Subject × ℚ)) :
    ∀ (sel : List Subject) (c : ℕ),
      c ≤ (backfill l sel c).length ∨ ∀ p ∈ l, p.1 ∈ backfill l sel c := by
  induction l with
  | nil =>
      intro sel c
      exact Or.inr (fun p hp => absurd hp (List.not_mem_nil p))
  | cons p ps ih =>
    intro sel c
    rw [backfill_cons]
    split_ifs with h1 h2
    · rcases ih sel c with h | h
      · exact Or.inl h
      · refine Or.inr (fun q hq => ?_)
        rcases List.mem_cons.mp hq with hqp | hq'
        · obtain ⟨t, ht⟩ := backfill_prefix ps sel c
          rw [ht, hqp]
          exact List.mem_append.mpr (Or.inl h1)
        · exact h q hq'
    · exact Or.inl h2
    · rcases ih (sel ++ [p.1]) c with h | h
      · exact Or.inl h
      · refine Or.inr (fun q hq => ?_)
        rcases List.mem_cons.mp hq with hqp | hq'
        · obtain ⟨t, ht⟩ := backfill_prefix ps (sel ++ [p.1]) c
          rw [ht, hqp]
          refine List.mem_append.mpr (Or.inl ?_)
          simp
        · exact h q hq'

/-- Scoring and ranking step of `get_smart_subjects` (lines 67-76): score
every subject (jitter passed in explicitly) and sort by score; the sorting
is abstracted as a permutation-producing `sortBy`. -/
def smart_scored (sortBy : List (Subject × ℚ) → List (Subject × ℚ))
    (jitterOf : Subject → ℚ) (lib : SubjectLibrary) (question : String) :
    List (Subject × ℚ) :=
  sortBy ((allSubjects lib).map
    (fun s => (s, _calculate_relevance question s (jitterOf s))))

/-- `high_relevance_count = max(1, int(count * (1 - diversity)))`. -/
def smart_high (count : ℕ) (diversity : ℚ) : ℕ :=
  max 1 (⌊(count : ℚ) * (1 - diversity)⌋.toNat)

/-- Lines 83-88: the deterministic top slice plus a random sample (the
`sample` function abstracts `random.sample`) from the ranked tail. -/
def smart_selected2 (sample : List Subject → ℕ → List Subject)
    (scored : List (Subject × ℚ)) (count high : ℕ) : List Subject :=
  if (scored.drop high).map Prod.fst ≠ [] ∧ 0 < (count : ℤ) - (high : ℤ) then
    (scored.take high).map Prod.fst ++
      sample ((scored.drop high).map Prod.fst)
        (min ((count : ℤ) - (high : ℤ)).toNat ((scored.drop high).map Prod.fst).length)
  else (scored.take high).map Prod.fst

/-- Lines 91-96: backfill with next-highest-ranked unselected subjects
when still short of `count`. -/
def smart_selected3 (sample : List Subject → ℕ → List Subject)
    (scored : List (Subject × ℚ)) (count high : ℕ) : List Subject :=
  if (smart_selected2 sample scored count high).length < count
  then backfill scored (smart_selected2 sample scored count high) count
  else smart_selected2 sample scored count high

/-- `SubjectLibrary.get_smart_subjects`, with its randomness abstracted:
`sortBy` the score-descending sort, `sample` the tail sampling, `shuffle`
the final shuffle, `jitterOf` the per-subject jitter. -/
def get_smart_subjects (sortBy : List (Subject × ℚ) → List (Subject × ℚ))
    (sample : List Subject → ℕ → List Subject)
    (shuffle : List Subject → List Subject) (jitterOf : Subject → ℚ)
    (lib : SubjectLibrary) (question : String) (count : ℕ) (diversity : ℚ) :
    List Subject :=
  (shuffle (smart_selected3 sample (smart_scored sortBy jitterOf lib question)
    count (smart_high count diversity))).take count

theorem sel2_props (sample : List Subject → ℕ → List Subject)
    (scored : List (Subject × ℚ)) (count high : ℕ)
    (hnd : (scored.map Prod.fst).Nodup)
    (hsample : ∀ (xs : List Subject) (n : ℕ), n ≤ xs.length →
      (sample xs n).length = n ∧ (∀ x ∈ sample xs n, x ∈ xs) ∧
      (xs.Nodup → (sample xs n).Nodup)) :
    (smart_selected2 sample scored count high).Nodup ∧
    (∀ x ∈ smart_selected2 sample scored count high, x ∈ scored.map Prod.fst) ∧
    min high (scored.map Prod.fst).length ≤
      (smart_selected2 sample scored count high).length := by
  have htake : (scored.take high).map Prod.fst = (scored.map Prod.fst).take high :=
    List.map_take _ _ _
  have hdrop : (scored.drop high).map Prod.fst = (scored.map Prod.fst).drop high :=
    List.map_drop _ _ _
  have hsplitnd : ((scored.map Prod.fst).take high ++
      (scored.map Prod.fst).drop high).Nodup := by
    rw [List.take_append_drop]; exact hnd
  obtain ⟨hnd1, hnd2, hdisj⟩ := List.nodup_append.mp hsplitnd
  unfold smart_selected2
  rw [htake, hdrop]
  split_ifs with hc
  · obtain ⟨hslen, hssub, hsnd⟩ := hsample ((scored.map Prod.fst).drop high) _
      (min_le_right _ _)
    refine ⟨?_, ?_, ?_⟩
    · exact List.nodup_append.mpr ⟨hnd1, hsnd hnd2,
        fun a ha hb => hdisj ha (hssub a hb)⟩
    · intro x hx
      rcases List.mem_append.mp hx with h | h
      · exact List.take_subset _ _ h
      · exact List.drop_subset _ _ (hssub x h)
    · rw [List.length_append, List.length_take]
      omega
  · refine ⟨hnd1, fun x hx => List.take_subset _ _ hx, ?_⟩
    rw [List.length_take]

theorem sel3_props (sample : List Subject → ℕ → List Subject)
    (scored : List (Subject × ℚ)) (count high : ℕ)
    (hnd : (scored.map Prod.fst).Nodup)
    (hsample : ∀ (xs : List Subject) (n : ℕ), n ≤ xs.length →
      (sample xs n).length = n ∧ (∀ x ∈ sample xs n, x ∈ xs) ∧
      (xs.Nodup → (sample xs n).Nodup)) :
    (smart_selected3 sample scored count high).Nodup ∧
    (∀ x ∈ smart_selected3 sample scored count high, x ∈ scored.map Prod.fst) ∧
    min count (scored.map Prod.fst).length ≤
      (smart_selected3 sample scored count high).length ∧
    (smart_selected3 sample scored count high).length ≤
      (scored.map Prod.fst).length := by
  obtain ⟨h2nd, h2sub, h2len⟩ := sel2_props sample scored count high hnd hsample
  unfold smart_selected3
  split_ifs with hlt
  · have h3sub : ∀ x ∈ backfill scored (smart_selected2 sample scored count high) count,
        x ∈ scored.map Prod.fst := by
      intro x hx
      rcases backfill_subset scored _ count x hx with h | h
      · exact h2sub x h
      · exact h
    have h3nd := backfill_nodup scored _ count h2nd
    refine ⟨h3nd, h3sub, ?_, (h3nd.subperm h3sub).length_le⟩
    rcases backfill_covers scored (smart_selected2 sample scored count high) count with h | h
    · exact le_trans (min_le_left _ _) h
    · have hSsub : scored.map Prod.fst ⊆
          backfill scored (smart_selected2 sample scored count high) count := by
        intro x hx
        rw [List.mem_map] at hx
        obtain ⟨p, hp, rfl⟩ := hx
        exact h p hp
      exact le_trans (min_le_right _ _) ((hnd.subperm hSsub).length_le)
  · exact ⟨h2nd, h2sub, le_trans (min_le_left _ _) (by omega),
      (h2nd.subperm (fun x hx => h2sub x hx)).length_le⟩

/-- Claim C4: for every question, count and diversity, `get_smart_subjects`
returns `min count total` pairwise-distinct topics — exactly `count` when
`count ≤ total`, and every topic exactly once (a permutation of the
library) when `count ≥ total` — assuming the library has no duplicate and
that the sort, sampling and shuffle behave as `sorted`, `random.sample`
and `random.shuffle` do (a permutation; a without-replacement subset; a
permutation). -/
theorem C4_theorem (sortBy : List (Subject × ℚ) → List (Subject × ℚ))
    (sample : List Subject → ℕ → List Subject)
    (shuffle : List Subject → List Subject) (jitterOf : Subject → ℚ)
    (lib : SubjectLibrary) (question : String) (count : ℕ) (diversity : ℚ)
    (hnd : (allSubjects lib).Nodup)
    (hsort : ∀ l : List (Subject × ℚ), List.Perm (sortBy l) l)
    (hsample : ∀ (xs : List Subject) (n : ℕ), n ≤ xs.length →
      (sample xs n).length = n ∧ (∀ x ∈ sample xs n, x ∈ xs) ∧
      (xs.Nodup → (sample xs n).Nodup))
    (hshuffle : ∀ xs : List Subject, List.Perm (shuffle xs) xs) :
    (get_smart_subjects sortBy sample shuffle jitterOf lib question count diversity).length
      = min count (allSubjects lib).length ∧
    (get_smart_subjects sortBy sample shuffle jitterOf lib question count diversity).Nodup ∧
    ((allSubjects lib).length ≤ count →
      List.Perm (get_smart_subjects sortBy sample shuffle jitterOf lib question count diversity)
        (allSubjects lib)) := by
  have hSperm : List.Perm ((smart_scored sortBy jitterOf lib question).map Prod.fst)
      (allSubjects lib) := by
    unfold smart_scored
    refine List.Perm.trans ((hsort _).map Prod.fst) ?_
    rw [List.map_map]
    have hid : (Prod.fst ∘ fun s => (s, _calculate_relevance question s (jitterOf s))) =
        id := rfl
    rw [hid, List.map_id]
  have hSnd : ((smart_scored sortBy jitterOf lib question).map Prod.fst).Nodup :=
    hSperm.nodup_iff.mpr hnd
  have hSlen : ((smart_scored sortBy jitterOf lib question).map Prod.fst).length =
      (allSubjects lib).length := hSperm.length_eq
  obtain ⟨h3nd, h3sub, h3ge, h3le⟩ := sel3_props sample
    (smart_scored sortBy jitterOf lib question) count (smart_high count diversity)
    hSnd hsample
  have hres : get_smart_subjects sortBy sample shuffle jitterOf lib question count diversity
      = (shuffle (smart_selected3 sample (smart_scored sortBy jitterOf lib question)
          count (smart_high count diversity))).take count := rfl
  have hshlen := (hshuffle (smart_selected3 sample
    (smart_scored sortBy jitterOf lib question) count (smart_high count diversity))).length_eq
  refine ⟨?_, ?_, ?_⟩
  · rw [hres, List.length_take, hshlen]
    omega
  · rw [hres]
    exact ((hshuffle _).nodup_iff.mpr h3nd).sublist (List.take_sublist _ _)
  · intro hcount
    rw [hres, List.take_of_length_le (by omega)]
    have hsel3S : List.Perm
        (smart_selected3 sample (smart_scored sortBy jitterOf lib question) count
          (smart_high count diversity))
        ((smart_scored sortBy jitterOf lib question).map Prod.fst) :=
      List.Subperm.perm_of_length_le (h3nd.subperm h3sub) (by omega)
    exact (hshuffle _).trans (hsel3S.trans hSperm)

/-- Witness for C4 with the identity sort/shuffle, prefix sampling, zero
jitter, a 3-topic library, `count = 2`, `diversity = 1/2`. -/
theorem C4_witness :
    (get_smart_subjects id (fun xs n => xs.take n) id (fun _ => 0) libS "为什么？" 2 (1/2)).length
      = min 2 (allSubjects libS).length ∧
    (get_smart_subjects id (fun xs n => xs.take n) id (fun _ => 0) libS "为什么？" 2 (1/2)).Nodup := by
  have h := C4_theorem id (fun xs n => xs.take n) id (fun _ => 0) libS "为什么？" 2 (1/2)
    (by decide)
    (fun l => List.Perm.refl l)
    (fun xs n hle => ⟨by rw [List.length_take]; omega,
      fun x hx => List.take_subset _ _ hx,
      fun hn => hn.sublist (List.take_sublist _ _)⟩)
    (fun xs => List.Perm.refl xs)
  exact ⟨h.1, h.2.1⟩

/-- Request body of `POST /api/deep-chat`. -/
structure DeepChatRequest where
  question : String
  subject_name : String
  context : String
  representative : Option String

/-- Success response of `POST /api/deep-chat` (fields built by the handler). -/
structure DeepChatResponse where
  subject : String
  icon : String
  answer : String
  suggestions : List String
  schools : List School
  used_demo : Bool
deriving DecidableEq

/-- Lines 339-344 of `app.deep_chat`: the handler deep-copies the topic
record and, when a representative is supplied (and non-empty, by Python
truthiness), overrides the *copy's* persona with the fixed
representative-style directive.  The library entry itself is never
written. -/
def deep_chat_subject_override (subject_info : Subject)
    (representative : Option String) : Subject :=
  match representative with
  | some rep =>
      if rep = "" then subject_info
      else { subject_info with
        persona := "以" ++ rep ++ "的口吻与写作风格回答，保持其理论立场与术语习惯。" }
  | none => subject_info

/-- The generation part of `app.deep_chat` (lines 346-368): one
`deep_answer` call then one `generate_suggestions` call on the same agent,
then the `LLM_ONLY` check against the agent's (last) fallback flag,
surfacing `last_error_message` in the 503. -/
def deep_chat_core (subject_info : Subject) (LLM_ONLY mode_llm : Bool)
    (oracle : ℕ → String → Except String String) (req : DeepChatRequest) :
    Except ApiErr DeepChatResponse × ℕ :=
  let agent_subject := deep_chat_subject_override subject_info req.representative
  let r1 := deep_answer agent_subject ⟨false, none⟩
    (if mode_llm then some (oracle 0 (pyStrip req.question)) else none)
    (pyStrip req.question) req.context
  let r2 := generate_suggestions agent_subject r1.2.1
    (if mode_llm then some (oracle r1.2.2 (pyStrip req.question)) else none)
    (pyStrip req.question) r1.1
  if LLM_ONLY ∧ r2.2.1.last_used_demo then
    (.error (.serviceUnavailable
      (r2.2.1.last_error_message.getD "LLM调用失败，已禁止演示模式")), r1.2.2 + r2.2.2)
  else
    (.ok { subject := pyStrip req.subject_name
           icon := subject_info.icon
           answer := r1.1
           suggestions := r2.1
           schools := subject_info.schools
           used_demo := r2.2.1.last_used_demo }, r1.2.2 + r2.2.2)

/-- `app.deep_chat`.  The middle component of the result is the topic
library as observable after the call: the handler performs no write to it
(its only mutation targets the `deepcopy`), so every branch returns the
input library unchanged. -/
def deep_chat (lib : SubjectLibrary) (LLM_ONLY mode_llm : Bool)
    (oracle : ℕ → String → Except String String) (req : DeepChatRequest) :
    Except ApiErr DeepChatResponse × SubjectLibrary × ℕ :=
  if pyStrip req.question = "" ∨ pyStrip req.subject_name = "" then
    (.error (.badRequest "问题和学科名称不能为空"), lib, 0)
  else
    match get_subject_by_name lib (pyStrip req.subject_name) with
    | none => (.error (.notFound ("未找到学科：" ++ pyStrip req.subject_name)), lib, 0)
    | some subject_info =>
        ((deep_chat_core subject_info LLM_ONLY mode_llm oracle req).1, lib,
         (deep_chat_core subject_info LLM_ONLY mode_llm oracle req).2)

/-- Claim C10: a deep-chat call applies the representative persona override
only to a deep copy of the topic record: the library is unchanged by the
call, every subsequent lookup (of any name) observes exactly what it
observed before, and the override itself changes only the persona field,
leaving name, icon, description and factions intact. -/
theorem C10_theorem (lib : SubjectLibrary) (strict mode_llm : Bool)
    (oracle : ℕ → String → Except String String) (req : DeepChatRequest)
    (s : Subject) (rep : String) :
    (deep_chat lib strict mode_llm oracle req).2.1 = lib ∧
    (∀ name, get_subject_by_name (deep_chat lib strict mode_llm oracle req).2.1 name =
      get_subject_by_name lib name) ∧
    (deep_chat_subject_override s (some rep)).name = s.name ∧
    (deep_chat_subject_override s (some rep)).icon = s.icon ∧
    (deep_chat_subject_override s (some rep)).description = s.description ∧
    (deep_chat_subject_override s (some rep)).schools = s.schools ∧
    (rep ≠ "" → (deep_chat_subject_override s (some rep)).persona =
      "以" ++ rep ++ "的口吻与写作风格回答，保持其理论立场与术语习惯。") := by
  have hlib : (deep_chat lib strict mode_llm oracle req).2.1 = lib := by
    unfold deep_chat
    split
    · rfl
    · split <;> rfl
  refine ⟨hlib, fun name => by rw [hlib], ?_, ?_, ?_, ?_, ?_⟩
  · simp only [deep_chat_subject_override]; split <;> rfl
  · simp only [deep_chat_subject_override]; split <;> rfl
  · simp only [deep_chat_subject_override]; split <;> rfl
  · simp only [deep_chat_subject_override]; split <;> rfl
  · intro h
    simp only [deep_chat_subject_override]
    rw [if_neg h]

/-- Witness for C10 on concrete data: overriding 哲学 with 萨特's style
changes only the copy's persona; the library still returns the original. -/
theorem C10_witness :
    ("萨特" : String) ≠ "" ∧
    (deep_chat_subject_override subjPhil (some "萨特")).persona =
      "以" ++ "萨特" ++ "的口吻与写作风格回答，保持其理论立场与术语习惯。" ∧
    (deep_chat libS false false oracleFail ⟨"自由是什么？", "哲学", "", some "萨特"⟩).2.1
      = libS := by
  have h := C10_theorem libS false false oracleFail
    ⟨"自由是什么？", "哲学", "", some "萨特"⟩ subjPhil "萨特"
  exact ⟨by decide, h.2.2.2.2.2.2 (by decide), h.1⟩

end LetsTalk
